import Mathlib

/-!
Shallow embedding of the MCP protocol-client runtime described by this
repository's implementation guides (mcp-tools-quality.md,
mcp-docs/mcp-prompts-quality.md, mcp-resources-best-practices.md,
ai-dev-mvp/main.prompt.md), together with theorems settling the spec claims.
-/

/-! ## JavaScript value model (scalar fragment) -/

/-- Scalar JavaScript values as they appear in argument objects. -/
inductive JSValue where
  | vStr (s : String)
  | vNum (n : Int)
  | vBool (b : Bool)
  | vNull
  | vUndefined
  deriving DecidableEq, Repr

/-- JavaScript typeof on the scalar fragment. -/
def jsTypeof : JSValue → String
  | .vStr _ => "string"
  | .vNum _ => "number"
  | .vBool _ => "boolean"
  | .vNull => "object"
  | .vUndefined => "undefined"

/-- JavaScript String(value) coercion on the scalar fragment. -/
def jsToString : JSValue → String
  | .vStr s => s
  | .vNum n => toString n
  | .vBool true => "true"
  | .vBool false => "false"
  | .vNull => "null"
  | .vUndefined => "undefined"

/-- JavaScript Array.prototype.join element coercion: null and undefined
become the empty string. -/
def jsJoinElem : JSValue → String
  | .vNull => ""
  | .vUndefined => ""
  | v => jsToString v

/-- JavaScript ToNumber on the scalar fragment; none models NaN
(non-numeric strings are outside the modelled fragment). -/
def jsToNum : JSValue → Option Int
  | .vNum n => some n
  | .vBool true => some 1
  | .vBool false => some 0
  | .vNull => some 0
  | _ => none

/-- JavaScript Boolean(value) on the scalar fragment. -/
def jsTruthy : JSValue → Bool
  | .vStr s => !(s = "")
  | .vNum n => !(n = 0)
  | .vBool b => b
  | .vNull => false
  | .vUndefined => false

/-- JavaScript value < bound, false when the left side is not a number (NaN comparison). -/
def jsLtNum (v : JSValue) (m : Int) : Bool :=
  match jsToNum v with
  | some n => decide (n < m)
  | none => false

/-- JavaScript value > bound, false when the left side is not a number (NaN comparison). -/
def jsGtNum (v : JSValue) (m : Int) : Bool :=
  match jsToNum v with
  | some n => decide (m < n)
  | none => false

/-- JavaScript value.length: defined for strings, undefined otherwise. -/
def jsStrLength : JSValue → Option Nat
  | .vStr s => some s.length
  | _ => none

/-- value.length < bound; false when length is undefined (undefined comparisons are false). -/
def jsLenLt (v : JSValue) (m : Nat) : Bool :=
  match jsStrLength v with
  | some l => decide (l < m)
  | none => false

/-- value.length > bound; false when length is undefined (undefined comparisons are false). -/
def jsLenGt (v : JSValue) (m : Nat) : Bool :=
  match jsStrLength v with
  | some l => decide (m < l)
  | none => false

/-- JavaScript object property access on an entry list (first binding wins,
as in an object literal read back by Object.entries). -/
def lookupKey {α : Type} : List (String × α) → String → Option α
  | [], _ => none
  | (k, v) :: rest, key => if k = key then some v else lookupKey rest key

/-! ## Schemas and validation
(QualityToolExecutor / PromptParameterValidator) -/

/-- The per-parameter JSON-schema fragment the validators consult. The
regular-expression test of schema.pattern is carried extensionally as the
predicate computed by the compiled RegExp. -/
structure JSONSchema where
  type : Option String := none
  enum : Option (List JSValue) := none
  minimum : Option Int := none
  maximum : Option Int := none
  minLength : Option Nat := none
  maxLength : Option Nat := none
  pattern : Option (String → Bool) := none

/-- The object-level input schema: required names, declared properties,
and the additionalProperties flag. -/
structure ObjectSchema where
  required : List String := []
  properties : List (String × JSONSchema) := []
  additionalProperties : Bool := false

/-- The type check of PromptParameterValidator.validateParameter. -/
def typeErrors (name : String) (value : JSValue) (schema : JSONSchema) : List String :=
  match schema.type with
  | some t =>
    if jsTypeof value ≠ t then
      ["Parameter " ++ name ++ ": expected " ++ t ++ ", got " ++ jsTypeof value]
    else []
  | none => []

/-- The enum-membership check of PromptParameterValidator.validateParameter. -/
def enumErrors (name : String) (value : JSValue) (schema : JSONSchema) : List String :=
  match schema.enum with
  | some es =>
    if value ∉ es then
      ["Parameter " ++ name ++ ": value not in allowed values: " ++
        String.intercalate ", " (es.map jsJoinElem)]
    else []
  | none => []

/-- The numeric range checks of PromptParameterValidator.validateParameter. -/
def rangeErrors (name : String) (value : JSValue) (schema : JSONSchema) : List String :=
  if schema.type = some "number" ∨ schema.type = some "integer" then
    (match schema.minimum with
      | some m =>
        if jsLtNum value m then
          ["Parameter " ++ name ++ ": value below minimum " ++ toString m]
        else []
      | none => []) ++
    (match schema.maximum with
      | some m =>
        if jsGtNum value m then
          ["Parameter " ++ name ++ ": value above maximum " ++ toString m]
        else []
      | none => [])
  else []

/-- The string length and pattern checks of
PromptParameterValidator.validateParameter. -/
def lengthErrors (name : String) (value : JSValue) (schema : JSONSchema) : List String :=
  if schema.type = some "string" then
    (match schema.minLength with
      | some m =>
        if jsLenLt value m then
          ["Parameter " ++ name ++ ": length below minimum " ++ toString m]
        else []
      | none => []) ++
    (match schema.maxLength with
      | some m =>
        if jsLenGt value m then
          ["Parameter " ++ name ++ ": length above maximum " ++ toString m]
        else []
      | none => []) ++
    (match schema.pattern with
      | some p =>
        if !p (jsToString value) then
          ["Parameter " ++ name ++ ": pattern validation failed"]
        else []
      | none => [])
  else []

/-- PromptParameterValidator.validateParameter
(mcp-docs/mcp-prompts-quality.md lines 198-235): type check, enum check,
numeric range checks, string length and pattern checks, accumulated in order. -/
def validateParameter (name : String) (value : JSValue) (schema : JSONSchema) : List String :=
  typeErrors name value schema ++ enumErrors name value schema ++
    rangeErrors name value schema ++ lengthErrors name value schema

/-- Property read params[p], giving undefined for an absent key. -/
def readProp (params : List (String × JSValue)) (p : String) : JSValue :=
  (lookupKey params p).getD .vUndefined

/-- The required-presence loop of validateParameters: a violation for every
required name bound to undefined or null. -/
def requiredErrors (schema : ObjectSchema) (params : List (String × JSValue)) : List String :=
  schema.required.flatMap fun p =>
    if readProp params p = .vUndefined ∨ readProp params p = .vNull then
      ["Missing required parameter: " ++ p]
    else []

/-- The per-entry loop body of validateParameters: declared keys are checked
with validateParameter; undeclared keys are violations unless
additionalProperties. -/
def entryErrors (schema : ObjectSchema) (pv : String × JSValue) : List String :=
  match lookupKey schema.properties pv.1 with
  | some ps => validateParameter pv.1 pv.2 ps
  | none =>
    if !schema.additionalProperties then ["Unknown parameter: " ++ pv.1] else []

/-- Result of argument validation. -/
structure ValidationResult where
  valid : Bool
  errors : List String

/-- PromptParameterValidator.validateParameters
(mcp-docs/mcp-prompts-quality.md lines 164-196): accumulates all
violations — required presence first, then every entry — before judging. -/
def validateParameters (schema? : Option ObjectSchema)
    (params : List (String × JSValue)) : ValidationResult :=
  match schema? with
  | none => { valid := true, errors := [] }
  | some schema =>
    let errors := requiredErrors schema params ++ params.flatMap (entryErrors schema)
    { valid := errors.isEmpty, errors := errors }

/-! ## Argument sanitization (ArgumentSanitizer) -/

/-- The double-quote character. -/
def dquoteChar : Char := Char.ofNat 34

/-- The single-quote character. -/
def squoteChar : Char := Char.ofNat 39

/-- Characters stripped by the string sanitizer: < > " '. -/
def bannedChar (c : Char) : Bool :=
  c == '<' || c == '>' || c == dquoteChar || c == squoteChar

/-- ArgumentSanitizer.sanitizeString (mcp-tools-quality.md lines 198-205):
coerce to string, then remove every occurrence of < > " '. -/
def sanitizeString (value : JSValue) : String :=
  String.mk ((jsToString value).data.filter fun c => !bannedChar c)

/-- A tool definition: name, input schema, and its cache classification. -/
structure Tool where
  name : String
  inputSchema : ObjectSchema
  static : Bool := false

/-- ArgumentSanitizer.sanitizeValue (mcp-tools-quality.md lines 181-196).
The number, array and object leaf sanitizers are referenced but not defined
in the source, so they are taken as parameters. -/
def sanitizeValue (sanitizeNumber sanitizeArray sanitizeObject : JSValue → JSValue)
    (value : JSValue) (schema : JSONSchema) : JSValue :=
  match schema.type with
  | some "string" => .vStr (sanitizeString value)
  | some "number" => sanitizeNumber value
  | some "boolean" => .vBool (jsTruthy value)
  | some "array" => sanitizeArray value
  | some "object" => sanitizeObject value
  | _ => value

/-- ArgumentSanitizer.sanitizeArguments (mcp-tools-quality.md lines 168-179):
keep exactly the entries whose key is declared in schema.properties, with
sanitized values; every other entry is dropped without an error. -/
def sanitizeArguments (sanitizeNumber sanitizeArray sanitizeObject : JSValue → JSValue)
    (args : List (String × JSValue)) (tool : Tool) : List (String × JSValue) :=
  args.filterMap fun kv =>
    match lookupKey tool.inputSchema.properties kv.1 with
    | some ps => some (kv.1, sanitizeValue sanitizeNumber sanitizeArray sanitizeObject kv.2 ps)
    | none => none

/-! ## Tool execution (QualityToolExecutor.callTool) -/

/-- The tools/call wire request (the fields the claims inspect). -/
structure ToolCallRequest where
  id : Nat
  method : String
  paramsName : String
  paramsArguments : List (String × JSValue)
  deriving DecidableEq, Repr

/-- Errors a tool call can surface with. -/
inductive CallError where
  | validationError (errors : List String)
  | executionError (msg : String)
  deriving DecidableEq, Repr

/-- QualityToolExecutor.callTool (mcp-tools-quality.md lines 99-131), on the
already-resolved tool definition. Its validateArguments delegates to the
injected validator (the source's checkType helper is not defined there; the
claims instantiate the validator with validateParameters, the repository's
complete validator). Returns the call outcome together with the list of wire
requests this call transmitted. -/
def callTool (validate : ObjectSchema → List (String × JSValue) → ValidationResult)
    (sanitizeNumber sanitizeArray sanitizeObject : JSValue → JSValue)
    (session : ToolCallRequest → Except CallError JSValue)
    (reqId : Nat) (tool : Tool) (args : List (String × JSValue)) :
    Except CallError JSValue × List ToolCallRequest :=
  let validation := validate tool.inputSchema args
  if !validation.valid then
    (.error (.validationError validation.errors), [])
  else
    let request : ToolCallRequest :=
      { id := reqId, method := "tools/call", paramsName := tool.name,
        paramsArguments := sanitizeArguments sanitizeNumber sanitizeArray sanitizeObject args tool }
    (session request, [request])

/-! ## Tool cache (ToolCacheManager) -/

/-- One cached tool definition. -/
structure CachedTool where
  tool : Tool
  timestamp : Nat
  ttl : Nat

/-- ToolCacheManager.staticCacheTTL (one hour, in ms). -/
def staticCacheTTL : Nat := 3600000

/-- ToolCacheManager.dynamicCacheTTL (five minutes, in ms). -/
def dynamicCacheTTL : Nat := 300000

/-- The TTL class assignment of ToolCacheManager.getTool's cache update. -/
def cacheTTLFor (tool : Tool) : Nat :=
  if tool.static then staticCacheTTL else dynamicCacheTTL

/-- ToolCacheManager.isCacheExpired at current time now. -/
def isCacheExpired (now : Nat) (cached : CachedTool) : Bool :=
  decide (now - cached.timestamp > cached.ttl)

/-- Map.set on the entry-list model of the cache: bind the key, dropping any
previous binding. -/
def mapSet {α : Type} (cache : List (String × α)) (key : String) (entry : α) :
    List (String × α) :=
  (key, entry) :: cache.filter fun kv => !(kv.1 = key : Bool)

/-- ToolCacheManager.getTool (mcp-tools-quality.md lines 255-272): serve an
unexpired cached definition, otherwise fetch (fetchToolFromServer is not
defined in the source; a parameter) and refresh the cache. Returns the tool,
the updated cache, and the number of wire fetches performed. -/
def getTool (fetchToolFromServer : String → Tool) (now : Nat)
    (cache : List (String × CachedTool)) (name : String) (forceRefresh : Bool) :
    Tool × List (String × CachedTool) × Nat :=
  let hit : Option Tool :=
    match lookupKey cache name with
    | some cached =>
      if !forceRefresh && !isCacheExpired now cached then some cached.tool else none
    | none => none
  match hit with
  | some tool => (tool, cache, 0)
  | none =>
    let tool := fetchToolFromServer name
    (tool,
      mapSet cache name { tool := tool, timestamp := now, ttl := cacheTTLFor tool },
      1)

/-! ## Client state and the frame effect of call (QualityToolExecutor) -/

/-- One cached resource content entry (QualityResourceReader's content cache). -/
structure CachedContent where
  content : String
  timestamp : Nat
  ttl : Nat

/-- The caches a client session owns: the tool-definition cache of
ToolCacheManager and the content cache of QualityResourceReader. -/
structure ClientState where
  toolCache : List (String × CachedTool)
  contentCache : List (String × CachedContent)

/-- ToolCacheManager.getTool lifted to the client state: updates the tool cache. -/
def getToolSt (fetchToolFromServer : String → Tool) (now : Nat) (name : String)
    (forceRefresh : Bool) (st : ClientState) : Tool × ClientState × Nat :=
  let r := getTool fetchToolFromServer now st.toolCache name forceRefresh
  (r.1, { st with toolCache := r.2.1 }, r.2.2)

/-- QualityToolExecutor.callTool lifted to the client state. The body of
callTool (mcp-tools-quality.md lines 99-131) performs validation,
sanitization and the session request and never references either cache, so
the state passes through untouched. -/
def callToolSt (validate : ObjectSchema → List (String × JSValue) → ValidationResult)
    (sanitizeNumber sanitizeArray sanitizeObject : JSValue → JSValue)
    (session : ToolCallRequest → Except CallError JSValue)
    (reqId : Nat) (tool : Tool) (args : List (String × JSValue)) (st : ClientState) :
    (Except CallError JSValue × List ToolCallRequest) × ClientState :=
  (callTool validate sanitizeNumber sanitizeArray sanitizeObject session reqId tool args, st)

/-! ## Access control (ToolAccessController) -/

/-- The three local checks, in the order validateToolExecution runs them. -/
inductive AccessCheck where
  | permission
  | rateLimit
  | quota
  deriving DecidableEq, Repr

/-- The local policy rejection kinds. -/
inductive AccessError where
  | permissionDenied (msg : String)
  | rateLimited (msg : String)
  | quotaExceeded (msg : String)
  deriving DecidableEq, Repr

/-- ToolAccessController.checkToolAccess (mcp-tools-quality.md lines 213-222):
vacuously allowed when the tool requires no permissions, otherwise every
required permission must be held. -/
def checkToolAccess (permissionMap : List (String × List String))
    (toolName : String) (userPermissions : List String) : Bool :=
  let requiredPermissions := (lookupKey permissionMap toolName).getD []
  if requiredPermissions.length = 0 then
    true
  else
    requiredPermissions.all fun perm => userPermissions.contains perm

/-- ToolAccessController.validateToolExecution (mcp-tools-quality.md lines
224-242): permission, then rate limit, then quota, each throwing its own
error kind. The rate-limit and quota check bodies are not defined in the
source and enter as boolean parameters. Returns the outcome together with
the ordered list of checks that executed. -/
def validateToolExecution (permissionMap : List (String × List String))
    (toolName : String) (userPermissions : List String)
    (isRateLimited : Bool) (hasQuota : Bool) :
    Except AccessError Unit × List AccessCheck :=
  if !checkToolAccess permissionMap toolName userPermissions then
    (.error (.permissionDenied ("Access denied for tool: " ++ toolName)), [.permission])
  else if isRateLimited then
    (.error (.rateLimited ("Rate limit exceeded for tool: " ++ toolName)),
      [.permission, .rateLimit])
  else if !hasQuota then
    (.error (.quotaExceeded ("Resource quota exceeded for tool: " ++ toolName)),
      [.permission, .rateLimit, .quota])
  else
    (.ok (), [.permission, .rateLimit, .quota])

/-! ## Message envelopes (MessageHandler) -/

/-- A JSON-RPC id: string, number, or null. -/
inductive RPCId where
  | str (s : String)
  | num (n : Int)
  | null
  deriving DecidableEq, Repr

/-- The JSON-RPC error object. -/
structure RPCErrorObj where
  code : Int
  message : String
  deriving DecidableEq, Repr

/-- A parsed JSON-RPC message (ai-dev-mvp/main.prompt.md lines 318-336):
the union of the request shape (method/params) and the response shape
(result/error). -/
structure RPCMessage where
  jsonrpc : String
  id : Option RPCId := none
  method : Option String := none
  params : Option JSValue := none
  result : Option JSValue := none
  error : Option RPCErrorObj := none
  deriving DecidableEq, Repr

/-- Modelled from the spec: the remainder of MessageHandler.validateMessage is
elided in the source (其他验证逻辑...); the spec requires that for all
envelopes exactly one of (method) or (result xor error) holds and decoding
must fail otherwise. -/
def envelopeWellFormed (m : RPCMessage) : Bool :=
  (m.method.isSome && m.result.isNone && m.error.isNone) ||
  (m.method.isNone && (m.result.isSome ^^ m.error.isSome))

/-- MessageHandler.validateMessage (ai-dev-mvp/main.prompt.md lines 355-360):
the version check is from the source; the structural check is the
spec-modelled envelopeWellFormed. -/
def validateMessage (m : RPCMessage) : Except String Unit :=
  if m.jsonrpc ≠ "2.0" then .error "Invalid JSON-RPC version"
  else if !envelopeWellFormed m then .error "Invalid message structure"
  else .ok ()

/-- MessageHandler.deserialize on an already-parsed structure: validate, then
return the message. -/
def deserialize (m : RPCMessage) : Except String RPCMessage :=
  match validateMessage m with
  | .error e => .error e
  | .ok _ => .ok m

/-! ## Connection state machine (ConnectionManager) -/

/-- The connection states of the source (ai-dev-mvp/main.prompt.md lines
368-374). -/
inductive ConnectionState where
  | DISCONNECTED
  | CONNECTING
  | CONNECTED
  | ERROR
  | RECONNECTING
  deriving DecidableEq, Repr, Fintype

/-- The seven connection states named by the specification, stated from the
spec's words for the refinement comparison with the source's
ConnectionState. -/
inductive SpecConnectionState where
  | Disconnected
  | Connecting
  | Negotiating
  | Ready
  | Degraded
  | Closing
  | Closed
  deriving DecidableEq, Repr, Fintype

/-- The mutable fields of ConnectionManager. -/
structure ConnectionManager where
  state : ConnectionState
  reconnectAttempts : Nat
  maxReconnectAttempts : Nat
  deriving DecidableEq, Repr

/-- ConnectionManager.connect (ai-dev-mvp/main.prompt.md lines 381-390): set
CONNECTING, attempt establishConnection; on success set CONNECTED and reset
reconnectAttempts; on failure run handleConnectionError (not defined in the
source; a parameter). Also returns the ordered list of states entered. -/
def connect (establishOk : Bool) (onError : ConnectionManager → ConnectionManager)
    (m : ConnectionManager) : ConnectionManager × List ConnectionState :=
  let m1 : ConnectionManager := { m with state := .CONNECTING }
  if establishOk then
    ({ m1 with state := .CONNECTED, reconnectAttempts := 0 },
      [.CONNECTING, .CONNECTED])
  else
    (onError m1, [.CONNECTING])

/-! ## Heartbeat (HeartbeatManager) -/

/-- The probe schedule of HeartbeatManager.startHeartbeat: setInterval fires
the n-th probe at (n+1) * intervalMs. -/
def heartbeatProbeTime (intervalMs : Nat) (n : Nat) : Nat := (n + 1) * intervalMs

/-- The loop state of the heartbeat monitor: consecutive-miss counter and
whether the connection has been forced to Degraded. -/
structure HeartbeatState where
  misses : Nat
  degraded : Bool
  deriving DecidableEq, Repr

/-- Modelled from the spec: HeartbeatManager.handleHeartbeatFailure is
referenced but not defined in the source; the spec: a missed probe increments
the miss counter and exceeding the threshold forces Degraded. -/
def handleHeartbeatFailure (threshold : Nat) (st : HeartbeatState) : HeartbeatState :=
  let m := st.misses + 1
  { misses := m, degraded := st.degraded || decide (m > threshold) }

/-- Modelled from the spec: one heartbeat tick of startHeartbeat's interval
callback — a response resets the consecutive-miss count, a failure runs
handleHeartbeatFailure. -/
def heartbeatTick (threshold : Nat) (ok : Bool) (st : HeartbeatState) : HeartbeatState :=
  if ok then { misses := 0, degraded := st.degraded }
  else handleHeartbeatFailure threshold st

/-! ## Message batching (MessageBatcher) -/

/-- A JSON-RPC request as pushed into the MessageBatcher. -/
structure RPCRequest where
  jsonrpc : String := "2.0"
  id : RPCId
  method : String
  params : Option JSValue := none
  deriving DecidableEq, Repr

/-- A JSON-RPC response as returned for a batched sub-request. -/
structure RPCResponse where
  jsonrpc : String := "2.0"
  id : RPCId
  result : Option JSValue := none
  error : Option RPCErrorObj := none
  deriving DecidableEq, Repr

/-- MessageBatcher.batchSize. -/
def batchSize : Nat := 10

/-- MessageBatcher.batchTimeout in ms. -/
def batchTimeout : Nat := 100

/-- The batcher's mutable state: the pending batch and the number of armed
(not yet fired) window timers. -/
structure BatcherState where
  batch : List RPCRequest
  pendingTimers : Nat
  deriving DecidableEq, Repr

/-- MessageBatcher.flushBatch (ai-dev-mvp/main.prompt.md lines 523-533):
transmit createBatchRequest(batch) — the batched sub-requests in arrival
order — and clear the batch. The source does not guard against flushing an
empty batch. -/
def flushBatch (s : BatcherState) : BatcherState × List RPCRequest :=
  ({ s with batch := [] }, s.batch)

/-- MessageBatcher.sendMessage (ai-dev-mvp/main.prompt.md lines 508-521):
push the message; flush immediately once the batch reaches batchSize;
otherwise arm the window timer when this message opened a fresh batch.
Returns the transmissions emitted by this call. -/
def sendMessageStep (s : BatcherState) (msg : RPCRequest) :
    BatcherState × List (List RPCRequest) :=
  let s1 : BatcherState := { s with batch := s.batch ++ [msg] }
  if s1.batch.length ≥ batchSize then
    let f := flushBatch s1
    (f.1, [f.2])
  else if s1.batch.length = 1 then
    ({ s1 with pendingTimers := s1.pendingTimers + 1 }, [])
  else
    (s1, [])

/-- All sendMessage calls of one coalescing window, in arrival order. -/
def pushAll : BatcherState → List RPCRequest → BatcherState × List (List RPCRequest)
  | s, [] => (s, [])
  | s, msg :: rest =>
    let p := sendMessageStep s msg
    let q := pushAll p.1 rest
    (q.1, p.2 ++ q.2)

/-- After the window closes, every armed setTimeout fires and runs flushBatch. -/
def fireTimers : Nat → BatcherState → BatcherState × List (List RPCRequest)
  | 0, s => (s, [])
  | n + 1, s =>
    let f := flushBatch s
    let q := fireTimers n f.1
    (q.1, f.2 :: q.2)

/-- The wire transmissions produced when the given calls all arrive within one
coalescing window and the window then closes. -/
def windowTransmissions (msgs : List RPCRequest) : List (List RPCRequest) :=
  let p := pushAll { batch := [], pendingTimers := 0 } msgs
  p.2 ++ (fireTimers p.1.pendingTimers p.1).2

/-- Modelled from the spec: MessageBatcher.processBatchResponse is referenced
but not defined in the source; the spec: responses are demultiplexed back to
individual futures strictly by id, independent of response arrival order. -/
def demuxById (id : RPCId) (resps : List RPCResponse) : Option RPCResponse :=
  resps.find? fun r => decide (r.id = id)

/-! ## Concrete instances used by witnesses and counterexamples -/

/-- The schema of parameter a in the spec's validation example: a number. -/
def exSchemaA : JSONSchema := { type := some "number" }

/-- The schema of parameter b in the spec's validation example: enum("x","y"). -/
def exSchemaB : JSONSchema := { enum := some [.vStr "x", .vStr "y"] }

/-- The operation of the spec's validation example, requiring
a: number and b: enum("x","y"). -/
def exTool1 : Tool :=
  { name := "op",
    inputSchema :=
      { required := ["a", "b"],
        properties := [("a", exSchemaA), ("b", exSchemaB)] } }

/-- The arguments of the spec's validation example: a:"not-a-number", b:"z". -/
def exArgs1 : List (String × JSValue) := [("a", .vStr "not-a-number"), ("b", .vStr "z")]

/-- A session stub for witnesses. -/
def exSession : ToolCallRequest → Except CallError JSValue :=
  fun _ => .error (.executionError "offline")

/-- A numbered batcher request. -/
def mkReq (i : Int) : RPCRequest := { id := .num i, method := "tools/call" }

/-- Ten requests: exactly the batch size limit. -/
def tenReqs : List RPCRequest := (List.range 10).map fun i => mkReq i

/-- A concrete tool and fetcher for the cache witness. -/
def exFetch : String → Tool := fun n => { name := n, inputSchema := {} }

/-- A message with both a method and a result, violating the envelope invariant. -/
def exBadMsg : RPCMessage :=
  { jsonrpc := "2.0", id := some (.num 1), method := some "ping",
    result := some (.vStr "ok") }

/-- A freshly constructed manager with a stale attempt count, for the
connect witness. -/
def exManager : ConnectionManager :=
  { state := .DISCONNECTED, reconnectAttempts := 2, maxReconnectAttempts := 5 }

/-- A client state with one entry in each cache, for the frame witness. -/
def exClientState : ClientState :=
  { toolCache := [("op", { tool := exTool1, timestamp := 0, ttl := dynamicCacheTTL })],
    contentCache := [("file:///a", { content := "c", timestamp := 0, ttl := 60000 })] }

/-! ## Helper lemmas -/

theorem mem_vp_of_typeErrors {name : String} {v : JSValue} {s : JSONSchema} {e : String}
    (h : e ∈ typeErrors name v s) : e ∈ validateParameter name v s :=
  List.mem_append_left _ (List.mem_append_left _ (List.mem_append_left _ h))

theorem mem_vp_of_enumErrors {name : String} {v : JSValue} {s : JSONSchema} {e : String}
    (h : e ∈ enumErrors name v s) : e ∈ validateParameter name v s :=
  List.mem_append_left _ (List.mem_append_left _ (List.mem_append_right _ h))

theorem mem_vp_of_rangeErrors {name : String} {v : JSValue} {s : JSONSchema} {e : String}
    (h : e ∈ rangeErrors name v s) : e ∈ validateParameter name v s :=
  List.mem_append_left _ (List.mem_append_right _ h)

theorem mem_vp_of_lengthErrors {name : String} {v : JSValue} {s : JSONSchema} {e : String}
    (h : e ∈ lengthErrors name v s) : e ∈ validateParameter name v s :=
  List.mem_append_right _ h

theorem mem_errors_of_required {schema : ObjectSchema} {args : List (String × JSValue)}
    {p : String} (hp : p ∈ schema.required)
    (hm : readProp args p = .vUndefined ∨ readProp args p = .vNull) :
    ("Missing required parameter: " ++ p) ∈ (validateParameters (some schema) args).errors := by
  have h1 : ("Missing required parameter: " ++ p) ∈ requiredErrors schema args :=
    List.mem_flatMap.mpr ⟨p, hp, by rw [if_pos hm]; exact List.mem_singleton_self _⟩
  exact List.mem_append_left _ h1

theorem mem_errors_of_param {schema : ObjectSchema} {args : List (String × JSValue)}
    {p : String} {v : JSValue} {ps : JSONSchema} {e : String}
    (hpv : (p, v) ∈ args) (hps : lookupKey schema.properties p = some ps)
    (he : e ∈ validateParameter p v ps) :
    e ∈ (validateParameters (some schema) args).errors := by
  have h1 : e ∈ entryErrors schema (p, v) := by
    simpa [entryErrors, hps] using he
  exact List.mem_append_right _ (List.mem_flatMap.mpr ⟨(p, v), hpv, h1⟩)

theorem filter_self_idem (p : Char → Bool) (l : List Char) :
    (l.filter p).filter p = l.filter p := by
  induction l with
  | nil => rfl
  | cons a t ih =>
    by_cases h : p a <;> simp [List.filter_cons, h, ih]

/-! ## Claim theorems -/

/-- C10: the string sanitizer is idempotent — sanitizing an already sanitized
string changes nothing — and its output contains none of the characters
< > " '. -/
theorem C10_sanitizeString_idempotent_and_clean (x : String) :
    sanitizeString (.vStr (sanitizeString (.vStr x))) = sanitizeString (.vStr x)
    ∧ ((sanitizeString (.vStr x)).data.all fun c => !bannedChar c) = true := by
  constructor
  · exact congrArg String.mk (filter_self_idem (fun c => !bannedChar c) x.data)
  · rw [List.all_eq_true]
    intro c hc
    have hc' : c ∈ x.data.filter (fun c => !bannedChar c) := hc
    exact (List.mem_filter.mp hc').2

/-- C10 witness: the theorem applied to the concrete string "<a>". -/
theorem C10_witness :
    sanitizeString (.vStr (sanitizeString (.vStr "<a>"))) = sanitizeString (.vStr "<a>")
    ∧ ((sanitizeString (.vStr "<a>")).data.all fun c => !bannedChar c) = true :=
  C10_sanitizeString_idempotent_and_clean "<a>"

/-- C9: the sanitizer's output contains only keys declared in the tool's input
schema properties; an undeclared key never reaches the output — it is dropped
silently (the function is total, no error is raised) — while declared entries
are kept with sanitized values. -/
theorem C9_sanitizer_drops_undeclared_keys
    (sanitizeNumber sanitizeArray sanitizeObject : JSValue → JSValue)
    (args : List (String × JSValue)) (tool : Tool) :
    (∀ k v, (k, v) ∈ sanitizeArguments sanitizeNumber sanitizeArray sanitizeObject args tool →
      ∃ ps, lookupKey tool.inputSchema.properties k = some ps)
    ∧ (∀ k, lookupKey tool.inputSchema.properties k = none →
      ∀ w, (k, w) ∉ sanitizeArguments sanitizeNumber sanitizeArray sanitizeObject args tool)
    ∧ (∀ k v ps, (k, v) ∈ args → lookupKey tool.inputSchema.properties k = some ps →
      (k, sanitizeValue sanitizeNumber sanitizeArray sanitizeObject v ps)
        ∈ sanitizeArguments sanitizeNumber sanitizeArray sanitizeObject args tool) := by
  refine ⟨?_, ?_, ?_⟩
  · intro k v h
    obtain ⟨kv, hmem, heq⟩ := List.mem_filterMap.mp h
    cases hkv : lookupKey tool.inputSchema.properties kv.1 with
    | some ps =>
      rw [hkv] at heq
      simp only [Option.some.injEq, Prod.mk.injEq] at heq
      exact ⟨ps, heq.1 ▸ hkv⟩
    | none => rw [hkv] at heq; exact absurd heq (by simp)
  · intro k hnone w hw
    obtain ⟨kv, hmem, heq⟩ := List.mem_filterMap.mp hw
    cases hkv : lookupKey tool.inputSchema.properties kv.1 with
    | some ps =>
      rw [hkv] at heq
      simp only [Option.some.injEq, Prod.mk.injEq] at heq
      rw [heq.1] at hkv
      rw [hkv] at hnone
      exact absurd hnone (by simp)
    | none => rw [hkv] at heq; exact absurd heq (by simp)
  · intro k v ps hkv hps
    exact List.mem_filterMap.mpr ⟨(k, v), hkv, by simp [hps]⟩

/-- C9 witness: with properties declaring only "a", the entry ("a", "x") is
kept and the undeclared key "zz" is absent from the output. -/
theorem C9_witness :
    ("a", JSValue.vStr "x")
      ∈ sanitizeArguments id id id [("a", .vStr "x"), ("zz", .vNum 1)] exTool1
    ∧ ("zz", JSValue.vNum 1)
      ∉ sanitizeArguments id id id [("a", .vStr "x"), ("zz", .vNum 1)] exTool1 := by
  constructor
  · exact (C9_sanitizer_drops_undeclared_keys id id id
      [("a", .vStr "x"), ("zz", .vNum 1)] exTool1).2.2 "a" (.vStr "x") exSchemaA
      (by decide) (by rfl)
  · exact (C9_sanitizer_drops_undeclared_keys id id id
      [("a", .vStr "x"), ("zz", .vNum 1)] exTool1).2.1 "zz" (by rfl) (.vNum 1)

/-- C8: invoking a callable operation (tools/call) never creates or refreshes
any cache entry: after a call invocation both the tool-definition cache and
the content cache are exactly what they were before. -/
theorem C8_call_never_touches_caches
    (validate : ObjectSchema → List (String × JSValue) → ValidationResult)
    (sanitizeNumber sanitizeArray sanitizeObject : JSValue → JSValue)
    (session : ToolCallRequest → Except CallError JSValue)
    (reqId : Nat) (tool : Tool) (args : List (String × JSValue)) (st : ClientState) :
    (callToolSt validate sanitizeNumber sanitizeArray sanitizeObject session
        reqId tool args st).2.toolCache = st.toolCache
    ∧ (callToolSt validate sanitizeNumber sanitizeArray sanitizeObject session
        reqId tool args st).2.contentCache = st.contentCache :=
  ⟨rfl, rfl⟩

/-- C8 witness: the theorem applied to a concrete populated state. -/
theorem C8_witness :
    (callToolSt (fun s ps => validateParameters (some s) ps) id id id exSession
        1 exTool1 exArgs1 exClientState).2.toolCache = exClientState.toolCache
    ∧ (callToolSt (fun s ps => validateParameters (some s) ps) id id id exSession
        1 exTool1 exArgs1 exClientState).2.contentCache = exClientState.contentCache :=
  C8_call_never_touches_caches (fun s ps => validateParameters (some s) ps)
    id id id exSession 1 exTool1 exArgs1 exClientState

/-- C5: the access controller runs permission, then rate limit, then quota;
the first failing check determines the raised error and the later checks do
not execute. -/
theorem C5_access_checks_ordered_short_circuit
    (permissionMap : List (String × List String)) (toolName : String)
    (userPermissions : List String) (isRateLimited hasQuota : Bool) :
    (checkToolAccess permissionMap toolName userPermissions = false →
      validateToolExecution permissionMap toolName userPermissions isRateLimited hasQuota =
        (.error (.permissionDenied ("Access denied for tool: " ++ toolName)), [.permission]))
    ∧ (checkToolAccess permissionMap toolName userPermissions = true → isRateLimited = true →
      validateToolExecution permissionMap toolName userPermissions isRateLimited hasQuota =
        (.error (.rateLimited ("Rate limit exceeded for tool: " ++ toolName)),
          [.permission, .rateLimit]))
    ∧ (checkToolAccess permissionMap toolName userPermissions = true → isRateLimited = false →
      hasQuota = false →
      validateToolExecution permissionMap toolName userPermissions isRateLimited hasQuota =
        (.error (.quotaExceeded ("Resource quota exceeded for tool: " ++ toolName)),
          [.permission, .rateLimit, .quota]))
    ∧ (checkToolAccess permissionMap toolName userPermissions = true → isRateLimited = false →
      hasQuota = true →
      validateToolExecution permissionMap toolName userPermissions isRateLimited hasQuota =
        (.ok (), [.permission, .rateLimit, .quota])) := by
  refine ⟨?_, ?_, ?_, ?_⟩
  · intro h; simp [validateToolExecution, h]
  · intro h hrl; simp [validateToolExecution, h, hrl]
  · intro h hrl hq; simp [validateToolExecution, h, hrl, hq]
  · intro h hrl hq; simp [validateToolExecution, h, hrl, hq]

/-- C5 witness: a subject lacking the required permission is rejected with
PermissionDenied after the permission check alone. -/
theorem C5_witness :
    validateToolExecution [("t", ["admin"])] "t" [] true true =
      (.error (.permissionDenied ("Access denied for tool: " ++ "t")), [.permission]) :=
  (C5_access_checks_ordered_short_circuit [("t", ["admin"])] "t" [] true true).1 (by decide)

/-- C2 counterexample: the claim's seven-state machine cannot be realized by
the source's ConnectionState — there is no injective interpretation of the
spec's seven connection states into the code's five states, so the connection
state is not "always one of {Disconnected, Connecting, Negotiating, Ready,
Degraded, Closing, Closed}" and no Disconnected→Connecting→Negotiating→Ready
path exists. -/
theorem C2_counterexample :
    ¬ ∃ f : SpecConnectionState → ConnectionState, Function.Injective f := by
  rintro ⟨f, hf⟩
  have h := Fintype.card_le_of_injective f hf
  have h7 : Fintype.card SpecConnectionState = 7 := rfl
  have h5 : Fintype.card ConnectionState = 5 := rfl
  omega

/-- C2 amended: the connection state ranges over the source's five states
{DISCONNECTED, CONNECTING, CONNECTED, ERROR, RECONNECTING}; a successful
connect enters CONNECTING and then CONNECTED directly — there is no
negotiation stage — and resets the reconnect-attempt counter. -/
theorem C2_connect_goes_connecting_then_connected
    (onError : ConnectionManager → ConnectionManager) (m : ConnectionManager) :
    (connect true onError m).1.state = ConnectionState.CONNECTED
    ∧ (connect true onError m).1.reconnectAttempts = 0
    ∧ (connect true onError m).2 = [ConnectionState.CONNECTING, ConnectionState.CONNECTED] :=
  ⟨rfl, rfl, rfl⟩

/-- C2 witness: the amended theorem applied to a freshly disconnected manager. -/
theorem C2_witness :
    (connect true id exManager).1.state = ConnectionState.CONNECTED
    ∧ (connect true id exManager).1.reconnectAttempts = 0
    ∧ (connect true id exManager).2 =
      [ConnectionState.CONNECTING, ConnectionState.CONNECTED] :=
  C2_connect_goes_connecting_then_connected id exManager

/-- C6: decoding a message that violates the envelope invariant — a method
together with a result or error, a result together with an error, or none of
the three — fails, and a successfully decoded message never violates it. -/
theorem C6_decode_enforces_envelope_invariant (m m' : RPCMessage) :
    (((m.method.isSome && (m.result.isSome || m.error.isSome))
        || (m.result.isSome && m.error.isSome)
        || (!m.method.isSome && !m.result.isSome && !m.error.isSome)) = true →
      ∃ e, deserialize m = .error e)
    ∧ (deserialize m = .ok m' →
      ((m'.method.isSome && (m'.result.isSome || m'.error.isSome))
        || (m'.result.isSome && m'.error.isSome)
        || (!m'.method.isSome && !m'.result.isSome && !m'.error.isSome)) = false) := by
  constructor
  · intro hbad
    by_cases hv : m.jsonrpc = "2.0"
    · have hwf : envelopeWellFormed m = false := by
        cases hm : m.method <;> cases hr : m.result <;> cases he : m.error <;>
          simp_all [envelopeWellFormed]
      exact ⟨"Invalid message structure", by simp [deserialize, validateMessage, hv, hwf]⟩
    · exact ⟨"Invalid JSON-RPC version", by simp [deserialize, validateMessage, hv]⟩
  · intro hok
    have hkey : m' = m ∧ envelopeWellFormed m = true := by
      unfold deserialize validateMessage at hok
      by_cases hv : m.jsonrpc = "2.0"
      · by_cases hwf : envelopeWellFormed m
        · simp [hv, hwf] at hok
          exact ⟨hok.symm, hwf⟩
        · simp [hv, hwf] at hok
      · simp [hv] at hok
    obtain ⟨rfl, hwf⟩ := hkey
    cases hm : m'.method <;> cases hr : m'.result <;> cases he : m'.error <;>
      simp_all [envelopeWellFormed]

/-- C6 witness: a message carrying both a method and a result is rejected by
the decoder. -/
theorem C6_witness : ∃ e, deserialize exBadMsg = .error e :=
  (C6_decode_enforces_envelope_invariant exBadMsg exBadMsg).1 (by rfl)

/-- C7: heartbeat probes are scheduled at a fixed interval; a missed probe
increments the consecutive-miss counter; the connection becomes Degraded
exactly when the count of consecutive misses exceeds the threshold, and a
single miss at or below the threshold leaves the connection state unchanged. -/
theorem C7_heartbeat_threshold (intervalMs threshold n : Nat) (st : HeartbeatState) :
    heartbeatProbeTime intervalMs (n + 1) - heartbeatProbeTime intervalMs n = intervalMs
    ∧ (heartbeatTick threshold false st).misses = st.misses + 1
    ∧ (st.degraded = false → st.misses + 1 ≤ threshold →
        (heartbeatTick threshold false st).degraded = false)
    ∧ (st.degraded = false →
        ((heartbeatTick threshold false st).degraded = true ↔ st.misses + 1 > threshold)) := by
  refine ⟨?_, rfl, ?_, ?_⟩
  · simp only [heartbeatProbeTime]
    rw [Nat.add_mul, one_mul, Nat.add_sub_cancel_left]
  · intro hd hle
    simp [heartbeatTick, handleHeartbeatFailure, hd]
    omega
  · intro hd
    simp [heartbeatTick, handleHeartbeatFailure, hd]

/-- C7 witness: with threshold 3, probes every 30000 ms, and a first miss,
the miss counter becomes 1 and the connection is not degraded. -/
theorem C7_witness :
    heartbeatProbeTime 30000 1 - heartbeatProbeTime 30000 0 = 30000
    ∧ (heartbeatTick 3 false { misses := 0, degraded := false }).misses = 1
    ∧ (heartbeatTick 3 false { misses := 0, degraded := false }).degraded = false :=
  ⟨(C7_heartbeat_threshold 30000 3 0 { misses := 0, degraded := false }).1,
    (C7_heartbeat_threshold 30000 3 0 { misses := 0, degraded := false }).2.1,
    (C7_heartbeat_threshold 30000 3 0 { misses := 0, degraded := false }).2.2.1 rfl
      (by decide)⟩

/-- C1: when the arguments violate the schema, callTool fails with a single
ValidationError carrying the validator's complete violation list and
transmits nothing on the wire; the list contains a violation message for
every failed check — required presence, type match, enum membership, numeric
range, and string length/pattern. -/
theorem C1_validation_accumulates_all_and_blocks_wire
    (sanitizeNumber sanitizeArray sanitizeObject : JSValue → JSValue)
    (session : ToolCallRequest → Except CallError JSValue) (reqId : Nat)
    (tool : Tool) (args : List (String × JSValue))
    (hinvalid : (validateParameters (some tool.inputSchema) args).valid = false) :
    callTool (fun s ps => validateParameters (some s) ps) sanitizeNumber sanitizeArray
        sanitizeObject session reqId tool args =
      (.error (.validationError (validateParameters (some tool.inputSchema) args).errors), [])
    ∧ (∀ p, p ∈ tool.inputSchema.required →
        readProp args p = .vUndefined ∨ readProp args p = .vNull →
        ("Missing required parameter: " ++ p)
          ∈ (validateParameters (some tool.inputSchema) args).errors)
    ∧ (∀ p v t ps, (p, v) ∈ args →
        lookupKey tool.inputSchema.properties p = some ps →
        ps.type = some t → jsTypeof v ≠ t →
        ("Parameter " ++ p ++ ": expected " ++ t ++ ", got " ++ jsTypeof v)
          ∈ (validateParameters (some tool.inputSchema) args).errors)
    ∧ (∀ p v es ps, (p, v) ∈ args →
        lookupKey tool.inputSchema.properties p = some ps →
        ps.enum = some es → v ∉ es →
        ("Parameter " ++ p ++ ": value not in allowed values: " ++
            String.intercalate ", " (es.map jsJoinElem))
          ∈ (validateParameters (some tool.inputSchema) args).errors)
    ∧ (∀ p v mn ps, (p, v) ∈ args →
        lookupKey tool.inputSchema.properties p = some ps →
        ps.type = some "number" ∨ ps.type = some "integer" →
        ps.minimum = some mn → jsLtNum v mn = true →
        ("Parameter " ++ p ++ ": value below minimum " ++ toString mn)
          ∈ (validateParameters (some tool.inputSchema) args).errors)
    ∧ (∀ p v mx ps, (p, v) ∈ args →
        lookupKey tool.inputSchema.properties p = some ps →
        ps.type = some "number" ∨ ps.type = some "integer" →
        ps.maximum = some mx → jsGtNum v mx = true →
        ("Parameter " ++ p ++ ": value above maximum " ++ toString mx)
          ∈ (validateParameters (some tool.inputSchema) args).errors)
    ∧ (∀ p v mn ps, (p, v) ∈ args →
        lookupKey tool.inputSchema.properties p = some ps →
        ps.type = some "string" → ps.minLength = some mn → jsLenLt v mn = true →
        ("Parameter " ++ p ++ ": length below minimum " ++ toString mn)
          ∈ (validateParameters (some tool.inputSchema) args).errors)
    ∧ (∀ p v mx ps, (p, v) ∈ args →
        lookupKey tool.inputSchema.properties p = some ps →
        ps.type = some "string" → ps.maxLength = some mx → jsLenGt v mx = true →
        ("Parameter " ++ p ++ ": length above maximum " ++ toString mx)
          ∈ (validateParameters (some tool.inputSchema) args).errors)
    ∧ (∀ p v pat ps, (p, v) ∈ args →
        lookupKey tool.inputSchema.properties p = some ps →
        ps.type = some "string" → ps.pattern = some pat →
        pat (jsToString v) = false →
        ("Parameter " ++ p ++ ": pattern validation failed")
          ∈ (validateParameters (some tool.inputSchema) args).errors) := by
  refine ⟨?_, ?_, ?_, ?_, ?_, ?_, ?_, ?_, ?_⟩
  · simp [callTool, hinvalid]
  · intro p hp hm
    exact mem_errors_of_required hp hm
  · intro p v t ps hpv hps ht hne
    refine mem_errors_of_param hpv hps (mem_vp_of_typeErrors ?_)
    simp [typeErrors, ht, hne]
  · intro p v es ps hpv hps he hv
    refine mem_errors_of_param hpv hps (mem_vp_of_enumErrors ?_)
    simp [enumErrors, he, hv]
  · intro p v mn ps hpv hps hnum hmn hlt
    refine mem_errors_of_param hpv hps (mem_vp_of_rangeErrors ?_)
    unfold rangeErrors
    rw [if_pos hnum, hmn]
    simp [hlt]
  · intro p v mx ps hpv hps hnum hmx hgt
    refine mem_errors_of_param hpv hps (mem_vp_of_rangeErrors ?_)
    unfold rangeErrors
    rw [if_pos hnum, hmx]
    simp [hgt]
  · intro p v mn ps hpv hps hstr hmn hlt
    refine mem_errors_of_param hpv hps (mem_vp_of_lengthErrors ?_)
    unfold lengthErrors
    rw [if_pos hstr, hmn]
    simp [hlt]
  · intro p v mx ps hpv hps hstr hmx hgt
    refine mem_errors_of_param hpv hps (mem_vp_of_lengthErrors ?_)
    unfold lengthErrors
    rw [if_pos hstr, hmx]
    simp [hgt]
  · intro p v pat ps hpv hps hstr hpat hfail
    refine mem_errors_of_param hpv hps (mem_vp_of_lengthErrors ?_)
    unfold lengthErrors
    rw [if_pos hstr, hpat]
    simp [hfail]

/-- C1 witness: calling an operation requiring a: number, b: enum("x","y")
with a:"not-a-number", b:"z" yields one ValidationError listing both
violations and zero wire requests. -/
theorem C1_witness :
    callTool (fun s ps => validateParameters (some s) ps) id id id exSession
        1 exTool1 exArgs1 =
      (.error (.validationError
        (validateParameters (some exTool1.inputSchema) exArgs1).errors), [])
    ∧ (validateParameters (some exTool1.inputSchema) exArgs1).errors.length = 2 :=
  ⟨(C1_validation_accumulates_all_and_blocks_wire id id id exSession 1 exTool1 exArgs1
      (by decide)).1, by decide⟩

/-- C4: on a cold cache, a read fetches once; a second read of the same
fingerprint within the stored TTL is served from the cache with no wire
fetch, so the two reads cost exactly one transmission; a read after the TTL
has elapsed is a miss and performs exactly one fresh fetch. -/
theorem C4_ttl_cache_one_fetch
    (fetch : String → Tool) (name : String) (cache0 : List (String × CachedTool))
    (t1 t2 t3 : Nat) (h0 : lookupKey cache0 name = none)
    (h2 : t2 - t1 ≤ cacheTTLFor (fetch name))
    (h3 : t3 - t1 > cacheTTLFor (fetch name)) :
    (getTool fetch t1 cache0 name false).2.2 = 1
    ∧ getTool fetch t2 (getTool fetch t1 cache0 name false).2.1 name false =
      ((getTool fetch t1 cache0 name false).1,
        (getTool fetch t1 cache0 name false).2.1, 0)
    ∧ (getTool fetch t1 cache0 name false).2.2
        + (getTool fetch t2 (getTool fetch t1 cache0 name false).2.1 name false).2.2 = 1
    ∧ (getTool fetch t3 (getTool fetch t1 cache0 name false).2.1 name false).2.2 = 1 := by
  have hmiss : getTool fetch t1 cache0 name false =
      (fetch name,
        mapSet cache0 name
          { tool := fetch name, timestamp := t1, ttl := cacheTTLFor (fetch name) },
        1) := by
    simp [getTool, h0]
  have hlook : lookupKey
      (mapSet cache0 name
        { tool := fetch name, timestamp := t1, ttl := cacheTTLFor (fetch name) }) name =
      some { tool := fetch name, timestamp := t1, ttl := cacheTTLFor (fetch name) } := by
    simp [mapSet, lookupKey]
  have hfresh : isCacheExpired t2
      { tool := fetch name, timestamp := t1, ttl := cacheTTLFor (fetch name) } = false := by
    simp only [isCacheExpired, decide_eq_false_iff_not]
    omega
  have hstale : isCacheExpired t3
      { tool := fetch name, timestamp := t1, ttl := cacheTTLFor (fetch name) } = true := by
    simp only [isCacheExpired, decide_eq_true_eq]
    omega
  have hhit : getTool fetch t2 (getTool fetch t1 cache0 name false).2.1 name false =
      ((getTool fetch t1 cache0 name false).1,
        (getTool fetch t1 cache0 name false).2.1, 0) := by
    rw [hmiss]
    simp [getTool, hlook, hfresh]
  refine ⟨by rw [hmiss], hhit, ?_, ?_⟩
  · rw [hhit, hmiss]
    rfl
  · rw [hmiss]
    simp [getTool, hlook, hstale]

/-- C4 witness: the theorem at times 0, 300000 (= the dynamic TTL, still
fresh) and 300001 (expired) over an initially empty cache. -/
theorem C4_witness :
    (getTool exFetch 0 [] "t" false).2.2 = 1
    ∧ getTool exFetch 300000 (getTool exFetch 0 [] "t" false).2.1 "t" false =
      ((getTool exFetch 0 [] "t" false).1, (getTool exFetch 0 [] "t" false).2.1, 0)
    ∧ (getTool exFetch 0 [] "t" false).2.2
        + (getTool exFetch 300000 (getTool exFetch 0 [] "t" false).2.1 "t" false).2.2 = 1
    ∧ (getTool exFetch 300001 (getTool exFetch 0 [] "t" false).2.1 "t" false).2.2 = 1 :=
  C4_ttl_cache_one_fetch exFetch "t" [] 0 300000 300001 rfl (by decide) (by decide)

/-- The sendMessage step neither flushes nor arms a timer while the batch is
already open and stays strictly below the size limit. -/
theorem sendMessageStep_mid (s : BatcherState) (msg : RPCRequest)
    (hs : 1 ≤ s.batch.length) (h : s.batch.length + 1 < batchSize) :
    sendMessageStep s msg = ({ s with batch := s.batch ++ [msg] }, []) := by
  have hb : batchSize = 10 := rfl
  simp only [sendMessageStep, flushBatch]
  split_ifs with h1 h2
  · exfalso
    simp only [List.length_append, List.length_cons, List.length_nil] at h1
    omega
  · exfalso
    simp only [List.length_append, List.length_cons, List.length_nil] at h2
    omega
  · rfl

/-- Pushing further messages into an open batch that never reaches the size
limit only accumulates them: no transmission, no extra timer. -/
theorem pushAll_mid (msgs : List RPCRequest) (s : BatcherState)
    (hs : 1 ≤ s.batch.length) (h : s.batch.length + msgs.length < batchSize) :
    pushAll s msgs =
      ({ batch := s.batch ++ msgs, pendingTimers := s.pendingTimers }, []) := by
  induction msgs generalizing s with
  | nil => simp [pushAll]
  | cons msg rest ih =>
    have hb : batchSize = 10 := rfl
    simp only [List.length_cons] at h
    have hstep := sendMessageStep_mid s msg hs (by omega)
    have hrec := ih { s with batch := s.batch ++ [msg] }
      (by simp)
      (by simp only [List.length_append, List.length_cons, List.length_nil]; omega)
    simp only [pushAll, hstep, hrec]
    simp

/-- C3 counterexample: ten calls — exactly the batch size limit, hence within
the claim's scope — issued inside one coalescing window produce two wire
transmissions, not one: the size-triggered flush of the ten sub-requests is
followed by the still-armed window timer flushing an empty batch. -/
theorem C3_counterexample :
    tenReqs.length = batchSize
    ∧ windowTransmissions tenReqs = [tenReqs, []]
    ∧ (windowTransmissions tenReqs).length ≠ 1 :=
  ⟨rfl, by decide, by decide⟩

/-- C3 amended: for k concurrent calls with 1 ≤ k strictly below the batch
size limit issued within one coalescing window, exactly one wire transmission
is sent carrying the k sub-requests in arrival order (at k equal to the limit
a second, empty transmission follows from the stale window timer), and each
pending call is resolved with the response bearing its own correlation id,
independent of response arrival order. -/
theorem C3_one_transmission_and_demux_by_id
    (msgs : List RPCRequest) (h1 : 1 ≤ msgs.length) (h2 : msgs.length < batchSize)
    (resps resps' : List RPCResponse) (hperm : resps.Perm resps')
    (hnd : (resps.map RPCResponse.id).Nodup) :
    windowTransmissions msgs = [msgs]
    ∧ ∀ r ∈ resps, demuxById r.id resps' = some r := by
  constructor
  · obtain ⟨msg, rest, rfl⟩ : ∃ a t, msgs = a :: t := by
      cases msgs with
      | nil => simp at h1
      | cons a t => exact ⟨a, t, rfl⟩
    have hb : batchSize = 10 := rfl
    have hfirst : sendMessageStep { batch := [], pendingTimers := 0 } msg =
        ({ batch := [msg], pendingTimers := 1 }, []) := rfl
    have hrest : pushAll { batch := [msg], pendingTimers := 1 } rest =
        ({ batch := [msg] ++ rest, pendingTimers := 1 }, []) := by
      refine pushAll_mid rest _ (by simp) ?_
      simp only [List.length_cons, List.length_nil]
      simp only [List.length_cons] at h2
      omega
    have hpush : pushAll { batch := [], pendingTimers := 0 } (msg :: rest) =
        ({ batch := msg :: rest, pendingTimers := 1 }, []) := by
      simp only [pushAll, hfirst, hrest]
      simp
    simp only [windowTransmissions, hpush]
    rfl
  · intro r hr
    have hr' : r ∈ resps' := hperm.mem_iff.mp hr
    have hnd' : (resps'.map RPCResponse.id).Nodup := (hperm.map RPCResponse.id).nodup hnd
    have hsome : (resps'.find? fun x => decide (x.id = r.id)).isSome :=
      List.find?_isSome.mpr ⟨r, hr', by simp⟩
    obtain ⟨a, ha⟩ := Option.isSome_iff_exists.mp hsome
    have hpa : a.id = r.id := by simpa using List.find?_some ha
    have hma : a ∈ resps' := List.mem_of_find?_eq_some ha
    have heq : a = r := List.inj_on_of_nodup_map hnd' hma hr' hpa
    show resps'.find? (fun x => decide (x.id = r.id)) = some r
    rw [ha, heq]

/-- C3 witness: two calls in one window yield a single transmission carrying
both sub-requests in order. -/
theorem C3_witness :
    windowTransmissions [mkReq 1, mkReq 2] = [[mkReq 1, mkReq 2]] :=
  (C3_one_transmission_and_demux_by_id [mkReq 1, mkReq 2] (by decide) (by decide)
    [] [] (List.Perm.refl []) (by decide)).1
